import Mathlib

/-!
Shallow embedding of the Email & WhatsApp Sender Lambda
(`src/index.js`, combined email+chat orchestrator) and the plain Email
Sender Lambda (`src/unnamed/part_000`).

The model translates the JavaScript source function by function:

* duck-typed JavaScript values become `Option`-typed fields, with
  `jsTruthy` giving JavaScript truthiness for strings (absent or empty
  means falsy);
* each external effect (the DynamoDB read, the DynamoDB conditional
  write, the Gmail send, the WhatsApp text/media HTTP calls, the
  WhatsApp composite timeout) is an input supplied through an
  environment `Env`, so that one orchestrator run is a pure function of
  the job and the environment;
* thrown JavaScript exceptions become `Except.error`;
* an explicit `Trace` counts the store reads, store write attempts and
  per-transport calls a run performs.

Definitions come first, theorems afterwards.
-/

namespace Notif

/-- JavaScript truthiness of a possibly-absent string: `undefined`,
`null` and the empty string are falsy, every other string is truthy. -/
def jsTruthy : Option String → Bool
  | none => false
  | some s => !s.isEmpty

/-- JavaScript `a || b` on possibly-absent strings: keep `a` when it is
truthy, otherwise fall through to `b`. -/
def jsOrS (a b : Option String) : Option String :=
  if jsTruthy a then a else b

/-- The whitespace class of the JavaScript regex escape used by the
email validator. -/
def jsWhitespace (c : Char) : Bool :=
  c == ' ' || c == '\t' || c == '\n' || c == '\r' || c == '\x0b' || c == '\x0c'

/-- `isValidEmail` from the source: the anchored shape check
`local@domain.tld` (one `@`, no whitespace anywhere, at least one `.`
strictly inside the domain part). -/
def isValidEmail (email : String) : Bool :=
  let cs := email.toList
  let locPart := cs.takeWhile (· ≠ '@')
  match cs.dropWhile (· ≠ '@') with
  | '@' :: domain =>
    !locPart.isEmpty && locPart.all (fun c => !jsWhitespace c) &&
    domain.all (· ≠ '@') && domain.all (fun c => !jsWhitespace c) &&
    ((domain.drop 1).dropLast.contains '.')
  | _ => false

/-- Executable substring test (`hay` contains `needle`), used to state
that a validation reason contains the word "match". -/
def strContains (hay needle : String) : Bool :=
  (List.range (hay.toList.length + 1)).any
    (fun i => ((hay.toList.drop i).take needle.toList.length) == needle.toList)

/-- First digit in the Indian mobile range `6`-`9`, as tested by the
source regex on the cleaned number. -/
def leadingSixToNine : List Char → Bool
  | c :: _ => decide ('6' ≤ c) && decide (c ≤ '9')
  | [] => false

/-- `formatPhoneNumber` from the source: strip non-digits, accept a
12-digit `91`-prefixed number as-is, prepend `91` to a 10-digit number
starting `6`-`9`, accept any other 10-15 digit number as-is, reject the
rest (and absent/`"unknown"` input up front). -/
def formatPhoneNumber (phone : Option String) : Option String :=
  match phone with
  | none => none
  | some p =>
    if p.isEmpty || p == "unknown" then none
    else
      let cleaned := p.toList.filter (·.isDigit)
      if cleaned.take 2 == ['9', '1'] && cleaned.length == 12 then
        some (String.mk cleaned)
      else if cleaned.length == 10 && leadingSixToNine cleaned then
        some (String.mk ('9' :: '1' :: cleaned))
      else if 10 ≤ cleaned.length && cleaned.length ≤ 15 then
        some (String.mk cleaned)
      else none

/-! ## Job payload (duck-typed message payload) -/

/-- One entry of `matchInfo.topMatches`. -/
structure Photo where
  imageUrl : Option String := none
  deriving Repr, DecidableEq

/-- `matchInfo` of a job. `totalMatches = none` models an absent or
non-numeric value (the source checks `typeof ... !== 'number'`). -/
structure MatchInfo where
  totalMatches : Option Int := none
  topMatches : List Photo := []
  deriving Repr, DecidableEq

/-- `guestInfo` of a job. -/
structure GuestInfo where
  name : Option String := none
  email : Option String := none
  phone : Option String := none
  deriving Repr, DecidableEq

/-- `emailMetadata` of a job (only the fields the core logic branches
on). -/
structure EmailMetadata where
  galleryUrl : Option String := none
  eventName : Option String := none
  deriving Repr, DecidableEq

/-- A notification job payload as carried in `messageBody.payload`. -/
structure EmailJob where
  eventId : Option String := none
  guestId : Option String := none
  guestInfo : Option GuestInfo := none
  matchInfo : Option MatchInfo := none
  emailMetadata : Option EmailMetadata := none
  deriving Repr, DecidableEq

/-- One SQS record; `body = none` models a body whose JSON decoding (or
`payload` access) throws. -/
structure SqsRecord where
  messageId : String := ""
  body : Option EmailJob := none
  deriving Repr, DecidableEq

/-! ## Persistent delivery record (DynamoDB item) -/

/-- The `face_match_results` item fields touched by the two lambdas.
Absent attributes are `none`. -/
structure Record where
  notification_status : Option String := none
  notification_error : Option String := none
  notification_updated_at : Option String := none
  email_status : Option String := none
  email_sent : Option Bool := none
  email_message_id : Option String := none
  email_delivered_at : Option String := none
  email_updated_at : Option String := none
  email_error : Option String := none
  whatsapp_status : Option String := none
  whatsapp_sent : Option Bool := none
  whatsapp_message_id : Option String := none
  whatsapp_delivered_at : Option String := none
  delivery_status : Option String := none
  deriving Repr, DecidableEq

/-- Result of the duplicate-detection read. -/
structure DeliveryState where
  email : Bool
  whatsapp : Bool
  deriving Repr, DecidableEq

/-- `checkIfNotificationsSent` from `src/index.js`: project the four
status fields of the item (absent item or absent fields read as
not-sent); a thrown read error is caught and treated as
`{email: false, whatsapp: false}`. -/
def checkIfNotificationsSent (readOutcome : Except String (Option Record)) : DeliveryState :=
  match readOutcome with
  | .error _ => ⟨false, false⟩
  | .ok item =>
    ⟨(item.bind (·.email_status)) == some "sent" || (item.bind (·.email_sent)) == some true,
     (item.bind (·.whatsapp_status)) == some "sent" || (item.bind (·.whatsapp_sent)) == some true⟩

/-- `checkIfEmailSent` from `src/unnamed/part_000`: same projection for
the email channel only, read errors caught and treated as `false`. -/
def checkIfEmailSent (readOutcome : Except String (Option Record)) : Bool :=
  match readOutcome with
  | .error _ => false
  | .ok item =>
    (item.bind (·.email_status)) == some "sent" || (item.bind (·.email_sent)) == some true

/-! ## Validation -/

/-- Result of job validation. -/
structure Validation where
  isValid : Bool
  reason : Option String
  deriving Repr, DecidableEq

/-- `validateNotificationJob` from `src/index.js`, checks in source
order; the contact check accepts a valid email OR (WhatsApp enabled and
a phone present). -/
def validateNotificationJob (enableWhatsApp : Bool) (job : Option EmailJob) : Validation :=
  match job with
  | none => ⟨false, some "Missing notification job data"⟩
  | some j =>
    if !(jsTruthy j.eventId && jsTruthy j.guestId) then
      ⟨false, some "Missing eventId or guestId"⟩
    else match j.guestInfo with
    | none => ⟨false, some "Missing guest information"⟩
    | some gi =>
      if !(jsTruthy gi.name) then ⟨false, some "Missing guest name"⟩
      else match j.matchInfo with
      | none => ⟨false, some "Missing or invalid match information"⟩
      | some mi =>
        match mi.totalMatches with
        | none => ⟨false, some "Missing or invalid match information"⟩
        | some t =>
          if t ≤ 0 then ⟨false, some "No matches to notify about"⟩
          else match j.emailMetadata with
          | none => ⟨false, some "Missing gallery URL"⟩
          | some md =>
            if !(jsTruthy md.galleryUrl) then ⟨false, some "Missing gallery URL"⟩
            else if !(jsTruthy gi.email && isValidEmail (gi.email.getD "")) &&
                    (!enableWhatsApp || !(jsTruthy gi.phone)) then
              ⟨false, some "Missing or invalid contact information (email/phone)"⟩
            else ⟨true, none⟩

/-- `validateEmailJob` from `src/unnamed/part_000` (email is mandatory
there and is checked before the guest name). -/
def validateEmailJob (job : Option EmailJob) : Validation :=
  match job with
  | none => ⟨false, some "Missing email job data"⟩
  | some j =>
    if !(jsTruthy j.eventId && jsTruthy j.guestId) then
      ⟨false, some "Missing eventId or guestId"⟩
    else match j.guestInfo with
    | none => ⟨false, some "Missing guest information"⟩
    | some gi =>
      if !(jsTruthy gi.email && isValidEmail (gi.email.getD "")) then
        ⟨false, some "Missing or invalid guest email"⟩
      else if !(jsTruthy gi.name) then ⟨false, some "Missing guest name"⟩
      else match j.matchInfo with
      | none => ⟨false, some "Missing or invalid match information"⟩
      | some mi =>
        match mi.totalMatches with
        | none => ⟨false, some "Missing or invalid match information"⟩
        | some t =>
          if t ≤ 0 then ⟨false, some "No matches to notify about"⟩
          else match j.emailMetadata with
          | none => ⟨false, some "Missing gallery URL"⟩
          | some md =>
            if !(jsTruthy md.galleryUrl) then ⟨false, some "Missing gallery URL"⟩
            else ⟨true, none⟩

/-! ## WhatsApp transport -/

/-- The fields of a parsed WhatsApp provider response body that the
source reads. -/
structure WaBody where
  id : Option String := none
  messageId : Option String := none
  message_id : Option String := none
  retry_after : Option Nat := none
  message : Option String := none
  error : Option String := none
  deriving Repr, DecidableEq

/-- Outcome of one HTTP request to the WhatsApp provider: a response
with status code and (possibly unparsable) body, a request-level error,
or a client-side timeout. -/
inductive HttpResult where
  | response (statusCode : Nat) (parsed : Option WaBody) (raw : String)
  | reqError (msg : String)
  | timeout
  deriving Repr, DecidableEq

/-- The resolved value of one WhatsApp text/media call. -/
structure WaMsgResult where
  success : Bool
  messageId : Option String := none
  rateLimited : Bool := false
  retryAfter : Option Nat := none
  error : Option String := none
  deriving Repr, DecidableEq

/-- `sendWhatsAppTextMessage` from the source: 2xx resolves success (id
from the body or a generated fallback), 429 resolves success with
`rateLimited` and `retryAfter` (body value or 60), any other status
resolves failure; an unparsable body is a success only on 2xx;
request errors and the 8s timeout resolve failure. -/
def sendWhatsAppTextMessage (now : String) (h : HttpResult) : WaMsgResult :=
  match h with
  | .reqError msg => { success := false, error := some ("Request error: " ++ msg) }
  | .timeout => { success := false, error := some "Request timeout (8s)" }
  | .response code parsed raw =>
    match parsed with
    | some b =>
      if 200 ≤ code && code < 300 then
        { success := true,
          messageId := jsOrS b.id (jsOrS b.messageId (jsOrS b.message_id (some ("wa_text_" ++ now)))) }
      else if code == 429 then
        { success := true, messageId := some ("wa_ratelimit_" ++ now),
          rateLimited := true, retryAfter := some (b.retry_after.getD 60) }
      else
        { success := false,
          error := some ((jsOrS b.message b.error).getD ("HTTP " ++ toString code ++ ": " ++ raw)) }
    | none =>
      if 200 ≤ code && code < 300 then
        { success := true, messageId := some ("wa_text_" ++ now) }
      else
        { success := false, error := some "JSON parse error: unparsable body" }

/-- `sendWhatsAppImageMessage` from the source: success only on status
200 or 201 with a parsable body; everything else resolves failure. -/
def sendWhatsAppImageMessage (now : String) (h : HttpResult) : WaMsgResult :=
  match h with
  | .reqError msg => { success := false, error := some ("Request error: " ++ msg) }
  | .timeout => { success := false, error := some "Request timeout" }
  | .response code parsed _raw =>
    match parsed with
    | some b =>
      if code == 200 || code == 201 then
        { success := true,
          messageId := jsOrS b.id (jsOrS b.messageId (jsOrS b.message_id (some ("wa_img_" ++ now)))) }
      else
        { success := false,
          error := some ((jsOrS b.message b.error).getD ("HTTP " ++ toString code)) }
    | none => { success := false, error := some "JSON parse error: unparsable body" }

/-- The object returned by `sendWhatsAppNotification`. The success
branch of the source returns `{success, messageId, textSent, imagesSent,
totalImages, details}` and does NOT carry a `rateLimited`/`retryAfter`
key, so reading those keys on the composite result yields the
JavaScript `undefined` (modelled as `false`/`none`); the text-send
result inside `details` is the only place the rate-limit marker
survives. -/
structure WaSendOutcome where
  success : Bool
  messageId : Option String := none
  rateLimited : Bool := false
  retryAfter : Option Nat := none
  error : Option String := none
  textSent : Bool := false
  imagesSent : Nat := 0
  totalImages : Nat := 0
  imageResults : List WaMsgResult := []
  deriving Repr, DecidableEq

/-- Transport-call counters of one composite WhatsApp send. -/
structure WaTrace where
  textCalls : Nat
  imageCalls : Nat
  deriving Repr, DecidableEq

/-- Store write outcome injected through the environment: the DynamoDB
call either reaches the store (`ok`, after which any condition is
evaluated against the current item) or fails with some other error. -/
inductive DynamoOutcome where
  | ok
  | otherError (msg : String)
  deriving Repr, DecidableEq

/-- Gmail send result: `sendEmailViaGmailAPI` never throws, it returns
`{success, messageId}` or `{success: false, error}`. -/
structure EmailResult where
  success : Bool
  messageId : Option String := none
  error : Option String := none
  deriving Repr, DecidableEq

/-- The environment of one orchestrator run: configuration plus the
outcome of every external call the run may make.  `storeRec` is the
store item at write time (the conditional write is evaluated against
it); `readOutcome` is what the duplicate-detection read returns;
`emailAttempt` is `.error` when content generation throws, otherwise
the value `sendEmailViaGmailAPI` resolves with. -/
structure Env where
  enableWhatsApp : Bool
  whatsappApiKeySet : Bool
  maxPhotosInWhatsApp : Nat
  now : String
  readOutcome : Except String (Option Record)
  storeRec : Record
  dynamoWrite : DynamoOutcome
  emailAttempt : Except String EmailResult
  waText : HttpResult
  waImages : List HttpResult
  waTimeout : Bool

/-- `sendWhatsAppNotification` from the source: fail without any call if
the API key is missing or the phone does not normalize; otherwise send
the text (fail the whole channel if it fails), then send one media call
per top photo (bounded by the configured maximum), collecting per-image
results without ever failing the channel for them. -/
def sendWhatsAppNotification (env : Env) (gi : GuestInfo) (job : EmailJob) :
    WaSendOutcome × WaTrace :=
  if !env.whatsappApiKeySet then
    ({ success := false, error := some "WhatsApp API key not configured" }, ⟨0, 0⟩)
  else
    match formatPhoneNumber gi.phone with
    | none =>
      ({ success := false,
         error := some ("Invalid phone number format: " ++ gi.phone.getD "undefined") }, ⟨0, 0⟩)
    | some _pn =>
      let textResult := sendWhatsAppTextMessage env.now env.waText
      if !textResult.success then
        ({ success := false,
           error := some ("Text message failed: " ++ textResult.error.getD "undefined") }, ⟨1, 0⟩)
      else
        let topPhotos :=
          (match job.matchInfo with
           | some mi => mi.topMatches
           | none => []).take env.maxPhotosInWhatsApp
        let imageResults :=
          (List.range topPhotos.length).map
            (fun i => sendWhatsAppImageMessage env.now
              (env.waImages.getD i (HttpResult.reqError "no response")))
        ({ success := true, messageId := textResult.messageId, textSent := true,
           imagesSent := (imageResults.filter (·.success)).length,
           totalImages := imageResults.length,
           imageResults := imageResults }, ⟨1, topPhotos.length⟩)

/-! ## Store writes -/

/-- The multi-field `SET` of `updateNotificationStatus` applied to an
item: always the aggregate status/timestamp; the email block (and
`delivery_status = delivered`) only when an email messageId is truthy;
the WhatsApp block only when a WhatsApp messageId is truthy; the error
attribute only for a truthy message on a failed status. -/
def applyNotifUpdate (rec : Record) (now status : String)
    (errorMessage emailMessageId whatsappMessageId : Option String) : Record :=
  let r1 := { rec with notification_status := some status, notification_updated_at := some now }
  let r2 :=
    if jsTruthy emailMessageId then
      { r1 with email_status := some "sent", email_sent := some true,
                email_message_id := emailMessageId, email_delivered_at := some now,
                delivery_status := some "delivered" }
    else r1
  let r3 :=
    if jsTruthy whatsappMessageId then
      { r2 with whatsapp_status := some "sent", whatsapp_sent := some true,
                whatsapp_message_id := whatsappMessageId, whatsapp_delivered_at := some now }
    else r2
  if status == "failed" && jsTruthy errorMessage then
    { r3 with notification_error := errorMessage }
  else r3

/-- Condition evaluation of the write: a condition is attached only when
an email messageId is being written, and it requires `email_sent` to be
absent or `false`.  A rejected condition is the
`ConditionalCheckFailedException` path: the source catches it and
returns `null` (modelled as `none`, i.e. no new item). -/
def condCommit (rec : Record) (now status : String)
    (errorMessage emailMessageId whatsappMessageId : Option String) : Option Record :=
  if jsTruthy emailMessageId &&
      !(rec.email_sent == none || rec.email_sent == some false) then
    none
  else
    some (applyNotifUpdate rec now status errorMessage emailMessageId whatsappMessageId)

/-- `updateNotificationStatus` from `src/index.js`: any non-conditional
store error is rethrown (`.error`); a conditional-check failure is
swallowed and returns `null` (`.ok none`); otherwise the updated item is
returned (`.ok (some _)`). -/
def updateNotificationStatus (rec : Record) (dyn : DynamoOutcome) (now status : String)
    (errorMessage emailMessageId whatsappMessageId : Option String) :
    Except String (Option Record) :=
  match dyn with
  | .otherError e => .error e
  | .ok => .ok (condCommit rec now status errorMessage emailMessageId whatsappMessageId)

/-- The unconditional `SET` of `updateEmailStatus` in
`src/unnamed/part_000`. -/
def applyEmailUpdate (rec : Record) (now status : String)
    (errorMessage emailMessageId : Option String) : Record :=
  let r1 := { rec with email_status := some status, email_sent := some (status == "sent"),
                       email_updated_at := some now }
  let r2 :=
    if status == "sent" && jsTruthy emailMessageId then
      { r1 with email_message_id := emailMessageId, delivery_status := some "delivered",
                email_delivered_at := some now }
    else r1
  if status == "failed" && jsTruthy errorMessage then
    { r2 with email_error := errorMessage }
  else r2

/-- `updateEmailStatus` from `src/unnamed/part_000`: no condition at
all; store errors are rethrown. -/
def updateEmailStatus (rec : Record) (dyn : DynamoOutcome) (now status : String)
    (errorMessage emailMessageId : Option String) : Except String Record :=
  match dyn with
  | .otherError e => .error e
  | .ok => .ok (applyEmailUpdate rec now status errorMessage emailMessageId)

/-! ## Orchestrator -/

/-- The per-job result object built by `processNotificationMessage`
(fields absent from a given return path keep their defaults, matching
the JavaScript object missing those keys). -/
structure ProcResult where
  messageId : String
  status : String
  reason : Option String := none
  eventId : Option String := none
  guestId : Option String := none
  emailSent : Bool := false
  whatsappSent : Bool := false
  emailMessageId : Option String := none
  whatsappMessageId : Option String := none
  whatsappRateLimited : Bool := false
  whatsappRetryAfter : Option Nat := none
  errors : List String := []
  deriving Repr, DecidableEq

/-- Effect counters of one orchestrator run: store reads, store write
attempts, and transport calls per kind. -/
structure Trace where
  storeReads : Nat
  storeWrites : Nat
  emailCalls : Nat
  waTextCalls : Nat
  waImageCalls : Nat
  deriving Repr, DecidableEq

/-- Full observable outcome of one run: the returned result (or the
rethrown exception), the item stored by the run's final status write
when that write committed, and the effect counters. -/
structure ProcOut where
  result : Except String ProcResult
  commit : Option Record
  trace : Trace
  deriving Repr

/-- The all-zero trace. -/
def zeroTrace : Trace := ⟨0, 0, 0, 0, 0⟩

/-- The email branch of the orchestrator: skip (counting as sent) when
the channel is already marked sent, otherwise one Gmail attempt whose
failure (thrown or resolved) is pushed onto the error list. -/
structure EmailPhaseOut where
  emailSent : Bool
  messageId : Option String
  errors : List String
  calls : Nat
  deriving Repr, DecidableEq

/-- Email branch of `processNotificationMessage` (lines 181-205 of
`src/index.js`). -/
def emailPhase (env : Env) (alreadySent : Bool) : EmailPhaseOut :=
  if alreadySent then ⟨true, none, [], 0⟩
  else
    match env.emailAttempt with
    | .error e => ⟨false, none, ["Email: " ++ e], 0⟩
    | .ok r =>
      if r.success then ⟨true, r.messageId, [], 1⟩
      else ⟨false, none, ["Email: " ++ r.error.getD "undefined"], 1⟩

/-- The WhatsApp branch outcome of the orchestrator. -/
structure WaPhaseOut where
  whatsappSent : Bool
  messageId : Option String
  rateLimited : Bool
  retryAfter : Option Nat
  errors : List String
  textCalls : Nat
  imageCalls : Nat
  deriving Repr, DecidableEq

/-- WhatsApp branch of `processNotificationMessage` (lines 207-254 of
`src/index.js`): attempted only when enabled, a phone is present and
the channel is not already sent; a composite-timeout race loss is
caught as a channel error; an already-sent channel just sets the flag. -/
def whatsappPhase (env : Env) (gi : GuestInfo) (job : EmailJob) (alreadySent : Bool) :
    WaPhaseOut :=
  if env.enableWhatsApp && jsTruthy gi.phone && !alreadySent then
    if env.waTimeout then
      ⟨false, none, false, none, ["WhatsApp: WhatsApp processing timeout after 15s"], 0, 0⟩
    else
      let sendRun := sendWhatsAppNotification env gi job
      let out := sendRun.1
      let tr := sendRun.2
      if out.success then
        ⟨true, out.messageId, out.rateLimited,
         (if out.rateLimited then out.retryAfter else none), [], tr.textCalls, tr.imageCalls⟩
      else
        ⟨false, none, false, none, ["WhatsApp: " ++ out.error.getD "undefined"],
         tr.textCalls, tr.imageCalls⟩
  else if !env.enableWhatsApp then ⟨false, none, false, none, [], 0, 0⟩
  else if !(jsTruthy gi.phone) then ⟨false, none, false, none, [], 0, 0⟩
  else ⟨true, none, false, none, [], 0, 0⟩

/-- The best-effort `failed` write of the job-level catch block in
`src/index.js`: attempted only when both ids parsed, its own failure is
swallowed; returns the committed item (if any) and the number of write
attempts. -/
def bestEffortFailedWrite (env : Env) (job : EmailJob) (msg : String) :
    Option Record × Nat :=
  if jsTruthy job.eventId && jsTruthy job.guestId then
    match updateNotificationStatus env.storeRec env.dynamoWrite env.now "failed"
        (some ("processing_error: " ++ msg)) none none with
    | .ok cm => (cm, 1)
    | .error _ => (none, 1)
  else (none, 0)

/-- `processNotificationMessage` from `src/index.js`, step by step:
decode, the logging access `emailJob.matchInfo.totalMatches` (which
throws when `matchInfo` is absent), the duplicate-detection read and
skip, validation with a `failed` write on rejection, the two channel
branches, and the final classification plus status write ( `sent` when
a channel flag is set and no error was collected, `partial` when a flag
is set alongside errors, `failed` when no flag is set). -/
def processNotificationMessage (env : Env) (sqs : SqsRecord) : ProcOut :=
  match sqs.body with
  | none => ⟨.error "invalid message body", none, zeroTrace⟩
  | some job =>
    match job.matchInfo with
    | none =>
      let m := "Cannot read properties of undefined (reading 'totalMatches')"
      let bw := bestEffortFailedWrite env job m
      ⟨.error m, bw.1, ⟨0, bw.2, 0, 0, 0⟩⟩
    | some _mi =>
      let sent := checkIfNotificationsSent env.readOutcome
      if sent.email && (!env.enableWhatsApp || sent.whatsapp) then
        ⟨.ok { messageId := sqs.messageId, status := "skipped",
               reason := some "All notifications already sent",
               eventId := job.eventId, guestId := job.guestId },
         none, ⟨1, 0, 0, 0, 0⟩⟩
      else
        let v := validateNotificationJob env.enableWhatsApp (some job)
        if !v.isValid then
          match updateNotificationStatus env.storeRec env.dynamoWrite env.now "failed"
              v.reason none none with
          | .error e =>
            let bw := bestEffortFailedWrite env job e
            ⟨.error e, bw.1, ⟨1, 1 + bw.2, 0, 0, 0⟩⟩
          | .ok cm =>
            ⟨.ok { messageId := sqs.messageId, status := "failed", reason := v.reason,
                   eventId := job.eventId, guestId := job.guestId },
             cm, ⟨1, 1, 0, 0, 0⟩⟩
        else
          match job.guestInfo with
          | none =>
            let m := "Cannot read properties of undefined"
            let bw := bestEffortFailedWrite env job m
            ⟨.error m, bw.1, ⟨1, bw.2, 0, 0, 0⟩⟩
          | some gi =>
            let ep := emailPhase env sent.email
            let wp := whatsappPhase env gi job sent.whatsapp
            let errs := ep.errors ++ wp.errors
            if ep.emailSent || wp.whatsappSent then
              let status := if errs.isEmpty then "sent" else "partial"
              let errMsg :=
                if errs.isEmpty then none else some (String.intercalate "; " errs)
              match updateNotificationStatus env.storeRec env.dynamoWrite env.now status
                  errMsg ep.messageId wp.messageId with
              | .error e =>
                let bw := bestEffortFailedWrite env job e
                ⟨.error e, bw.1, ⟨1, 1 + bw.2, ep.calls, wp.textCalls, wp.imageCalls⟩⟩
              | .ok cm =>
                ⟨.ok { messageId := sqs.messageId, status := status,
                       reason := if errs.isEmpty then none else some "Some notifications failed",
                       eventId := job.eventId, guestId := job.guestId,
                       emailSent := ep.emailSent, whatsappSent := wp.whatsappSent,
                       emailMessageId := ep.messageId, whatsappMessageId := wp.messageId,
                       whatsappRateLimited := wp.rateLimited,
                       whatsappRetryAfter := wp.retryAfter, errors := errs },
                 cm, ⟨1, 1, ep.calls, wp.textCalls, wp.imageCalls⟩⟩
            else
              match updateNotificationStatus env.storeRec env.dynamoWrite env.now "failed"
                  (some (String.intercalate "; " errs)) none none with
              | .error e =>
                let bw := bestEffortFailedWrite env job e
                ⟨.error e, bw.1, ⟨1, 1 + bw.2, ep.calls, wp.textCalls, wp.imageCalls⟩⟩
              | .ok cm =>
                ⟨.ok { messageId := sqs.messageId, status := "failed",
                       reason := some "All notifications failed",
                       eventId := job.eventId, guestId := job.guestId,
                       emailSent := ep.emailSent, whatsappSent := wp.whatsappSent,
                       errors := errs },
                 cm, ⟨1, 1, ep.calls, wp.textCalls, wp.imageCalls⟩⟩

/-! ## Email-only lambda (`src/unnamed/part_000`) -/

/-- The best-effort `failed` write of the catch block in
`processEmailMessage` (prefix `template_or_send_error:`). -/
def bestEffortEmailFailedWrite (env : Env) (job : EmailJob) (msg : String) :
    Option Record × Nat :=
  if jsTruthy job.eventId && jsTruthy job.guestId then
    match updateEmailStatus env.storeRec env.dynamoWrite env.now "failed"
        (some ("template_or_send_error: " ++ msg)) none with
    | .ok r => (some r, 1)
    | .error _ => (none, 1)
  else (none, 0)

/-- `processEmailMessage` from `src/unnamed/part_000`: decode, the
logging access that throws on absent `matchInfo`, the duplicate check
and skip, validation with a `failed` write, one Gmail attempt, a `sent`
write on success, and on send failure a `failed` write followed by a
rethrown error (which triggers the catch block's second best-effort
write). -/
def processEmailMessage (env : Env) (sqs : SqsRecord) : ProcOut :=
  match sqs.body with
  | none => ⟨.error "invalid message body", none, zeroTrace⟩
  | some job =>
    match job.matchInfo with
    | none =>
      let m := "Cannot read properties of undefined (reading 'totalMatches')"
      let bw := bestEffortEmailFailedWrite env job m
      ⟨.error m, bw.1, ⟨0, bw.2, 0, 0, 0⟩⟩
    | some _mi =>
      if checkIfEmailSent env.readOutcome then
        ⟨.ok { messageId := sqs.messageId, status := "skipped",
               reason := some "Email already sent",
               eventId := job.eventId, guestId := job.guestId },
         none, ⟨1, 0, 0, 0, 0⟩⟩
      else
        let v := validateEmailJob (some job)
        if !v.isValid then
          match updateEmailStatus env.storeRec env.dynamoWrite env.now "failed"
              v.reason none with
          | .error e =>
            let bw := bestEffortEmailFailedWrite env job e
            ⟨.error e, bw.1, ⟨1, 1 + bw.2, 0, 0, 0⟩⟩
          | .ok r =>
            ⟨.ok { messageId := sqs.messageId, status := "failed", reason := v.reason,
                   eventId := job.eventId, guestId := job.guestId },
             some r, ⟨1, 1, 0, 0, 0⟩⟩
        else
          match env.emailAttempt with
          | .error e =>
            let bw := bestEffortEmailFailedWrite env job e
            ⟨.error e, bw.1, ⟨1, bw.2, 0, 0, 0⟩⟩
          | .ok r =>
            if r.success then
              match updateEmailStatus env.storeRec env.dynamoWrite env.now "sent"
                  none r.messageId with
              | .error e =>
                let bw := bestEffortEmailFailedWrite env job e
                ⟨.error e, bw.1, ⟨1, 1 + bw.2, 1, 0, 0⟩⟩
              | .ok rec =>
                ⟨.ok { messageId := sqs.messageId, status := "sent",
                       eventId := job.eventId, guestId := job.guestId,
                       emailMessageId := r.messageId },
                 some rec, ⟨1, 1, 1, 0, 0⟩⟩
            else
              let e0 := "Email sending failed: " ++ r.error.getD "undefined"
              match updateEmailStatus env.storeRec env.dynamoWrite env.now "failed"
                  r.error none with
              | .error e =>
                let bw := bestEffortEmailFailedWrite env job e
                ⟨.error e, bw.1, ⟨1, 1 + bw.2, 1, 0, 0⟩⟩
              | .ok _rec =>
                let bw := bestEffortEmailFailedWrite env job e0
                ⟨.error e0, bw.1, ⟨1, 1 + bw.2, 1, 0, 0⟩⟩

/-! ## Batch dispatcher -/

/-- One entry of the per-record result list the handler accumulates. -/
structure HandlerItem where
  messageId : String
  status : String
  deriving Repr, DecidableEq

/-- The batch response: the accumulated per-record entries and the
`batchItemFailures` identifiers. -/
structure BatchOut where
  items : List HandlerItem
  batchItemFailures : List String
  deriving Repr, DecidableEq

/-- The per-record try/catch of the handler loop: a returned result is
recorded with its own status; a thrown exception is caught and recorded
as a `failed` entry for that record's identifier. -/
def recordOutcome (res : Except String ProcResult) (r : SqsRecord) : HandlerItem :=
  match res with
  | .ok p => ⟨p.messageId, p.status⟩
  | .error _ => ⟨r.messageId, "failed"⟩

/-- The result list of the handler loop in `src/index.js`: each record
is processed independently. -/
def handlerItems (envOf : SqsRecord → Env) (records : List SqsRecord) : List HandlerItem :=
  records.map (fun r => recordOutcome (processNotificationMessage (envOf r) r).result r)

/-- The `handler` of `src/index.js`: run every record, then report as
`batchItemFailures` exactly the identifiers of the results whose status
is `failed`. -/
def handler (envOf : SqsRecord → Env) (records : List SqsRecord) : BatchOut :=
  let items := handlerItems envOf records
  ⟨items, (items.filter (fun it => it.status == "failed")).map (·.messageId)⟩

/-! ## Concrete scenarios used by the theorems -/

/-- The empty store item (all attributes absent). -/
def plainRec : Record := {}

/-- A fully valid job with an email contact and no phone. -/
def goodJob : EmailJob :=
  { eventId := some "e1", guestId := some "g1",
    guestInfo := some { name := some "Guest", email := some "guest@example.com", phone := none },
    matchInfo := some { totalMatches := some 3, topMatches := [] },
    emailMetadata := some { galleryUrl := some "https://x/g" } }

/-- An environment where WhatsApp is disabled, the read finds an
untouched item, and the Gmail send succeeds with id `em-1`. -/
def goodEnv : Env :=
  { enableWhatsApp := false, whatsappApiKeySet := false, maxPhotosInWhatsApp := 3,
    now := "t", readOutcome := .ok (some plainRec), storeRec := plainRec,
    dynamoWrite := .ok,
    emailAttempt := .ok { success := true, messageId := some "em-1" },
    waText := .reqError "unused", waImages := [], waTimeout := false }

/-- The result of a fresh successful email-only run of `goodEnv` on
`goodJob`. -/
def sentResult : ProcResult :=
  { messageId := "m1", status := "sent", eventId := some "e1", guestId := some "g1",
    emailSent := true, emailMessageId := some "em-1" }

/-- A store item recording both channels as already sent. -/
def sentRec : Record := { email_sent := some true, whatsapp_sent := some true }

/-- `goodEnv` with WhatsApp enabled and a read that finds both channels
already sent. -/
def skipEnv : Env := { goodEnv with enableWhatsApp := true, readOutcome := .ok (some sentRec) }

/-- A store item whose WhatsApp channel is already marked sent with a
recorded message id. -/
def c2Rec : Record :=
  { whatsapp_sent := some true, whatsapp_message_id := some "wa-old",
    whatsapp_delivered_at := some "t0" }

/-- `goodEnv` with WhatsApp enabled; together with the phoneless
`goodJob` this makes the chat channel ineligible for a send attempt. -/
def c5Env : Env := { goodEnv with enableWhatsApp := true, whatsappApiKeySet := true }

/-- `goodJob` with `totalMatches = 0`. -/
def c6Job : EmailJob := { goodJob with matchInfo := some { totalMatches := some 0 } }

/-- Guest with a normalizable Indian phone number. -/
def chatGi : GuestInfo :=
  { name := some "Guest", email := some "guest@example.com", phone := some "9876543210" }

/-- A job eligible for both channels, with two top photos. -/
def chatJob : EmailJob :=
  { goodJob with
    guestInfo := some chatGi,
    matchInfo := some { totalMatches := some 2,
                        topMatches := [{ imageUrl := some "u1" }, { imageUrl := some "u2" }] } }

/-- The SQS record carrying `chatJob`. -/
def chatSqs : SqsRecord := { messageId := "m9", body := some chatJob }

/-- An environment where both channels are live: the Gmail send and the
WhatsApp text send succeed, the first media send succeeds and the
second fails. -/
def chatEnv : Env :=
  { goodEnv with
    enableWhatsApp := true, whatsappApiKeySet := true,
    waText := .response 200 (some { id := some "wa-1" }) "raw",
    waImages := [.response 200 (some {}) "raw", .reqError "boom"] }

/-- A three-record batch whose middle record has an undecodable body. -/
def batchRecords : List SqsRecord :=
  [ { messageId := "m1", body := some goodJob },
    { messageId := "m2", body := none },
    { messageId := "m3", body := some goodJob } ]

/-- The SQS record carrying `goodJob` under id `m1`. -/
def goodSqs : SqsRecord := { messageId := "m1", body := some goodJob }

/-- The SQS record carrying `goodJob` under id `m5`. -/
def c5Sqs : SqsRecord := { messageId := "m5", body := some goodJob }

/-- The result of running `c5Env` on `c5Sqs`. -/
def c5Result : ProcResult := { sentResult with messageId := "m5" }

/-- The SQS record carrying `c6Job` under id `m6`. -/
def c6Sqs : SqsRecord := { messageId := "m6", body := some c6Job }

/-- The match block of `goodJob`. -/
def goodMi : MatchInfo := { totalMatches := some 3, topMatches := [] }

/-- The guest block of `goodJob`. -/
def goodGi : GuestInfo :=
  { name := some "Guest", email := some "guest@example.com", phone := none }

/-- The match block of `c6Job`. -/
def c6Mi : MatchInfo := { totalMatches := some 0 }

/-- The middle record of `batchRecords`: its body cannot be decoded, so
processing it throws. -/
def badSqs : SqsRecord := { messageId := "m2", body := none }

/-- A guest whose phone is the literal placeholder the normalizer
rejects. -/
def unknownGi : GuestInfo := { name := some "Guest", phone := some "unknown" }

/-! ## Theorems -/

/-- C1: a job whose delivery record already shows every enabled channel
as sent (email sent, and chat sent or chat disabled) is returned with
status `skipped`; the run performs exactly one store read, zero store
writes, zero transport calls of any kind, and commits nothing; the same
holds for the email-only lambda when its record shows email sent. -/
theorem c1_already_delivered_skips :
    (∀ (env : Env) (sqs : SqsRecord) (job : EmailJob) (mi : MatchInfo),
      sqs.body = some job → job.matchInfo = some mi →
      (checkIfNotificationsSent env.readOutcome).email = true →
      (env.enableWhatsApp = false ∨ (checkIfNotificationsSent env.readOutcome).whatsapp = true) →
      processNotificationMessage env sqs =
        ⟨.ok { messageId := sqs.messageId, status := "skipped",
               reason := some "All notifications already sent",
               eventId := job.eventId, guestId := job.guestId },
         none, ⟨1, 0, 0, 0, 0⟩⟩) ∧
    (∀ (env : Env) (sqs : SqsRecord) (job : EmailJob) (mi : MatchInfo),
      sqs.body = some job → job.matchInfo = some mi →
      checkIfEmailSent env.readOutcome = true →
      processEmailMessage env sqs =
        ⟨.ok { messageId := sqs.messageId, status := "skipped",
               reason := some "Email already sent",
               eventId := job.eventId, guestId := job.guestId },
         none, ⟨1, 0, 0, 0, 0⟩⟩) := by
  constructor
  · intro env sqs job mi hb hm he hw
    have hcond : ((checkIfNotificationsSent env.readOutcome).email &&
        (!env.enableWhatsApp || (checkIfNotificationsSent env.readOutcome).whatsapp)) = true := by
      rcases hw with h | h <;> simp [he, h]
    obtain ⟨msgId, body⟩ := sqs
    obtain ⟨jeid, jgid, jgi, jmi, jmd⟩ := job
    dsimp only at hb hm ⊢
    subst hb
    subst hm
    unfold processNotificationMessage
    simp [hcond]
  · intro env sqs job mi hb hm he
    obtain ⟨msgId, body⟩ := sqs
    obtain ⟨jeid, jgid, jgi, jmi, jmd⟩ := job
    dsimp only at hb hm ⊢
    subst hb
    subst hm
    unfold processEmailMessage
    simp [he]

/-- C1 witness: the skip paths evaluated on a concrete already-sent
record. -/
theorem c1_witness :
    processNotificationMessage skipEnv goodSqs =
      ⟨.ok { messageId := "m1", status := "skipped",
             reason := some "All notifications already sent",
             eventId := some "e1", guestId := some "g1" },
       none, ⟨1, 0, 0, 0, 0⟩⟩ ∧
    processEmailMessage skipEnv goodSqs =
      ⟨.ok { messageId := "m1", status := "skipped",
             reason := some "Email already sent",
             eventId := some "e1", guestId := some "g1" },
       none, ⟨1, 0, 0, 0, 0⟩⟩ :=
  ⟨c1_already_delivered_skips.1 skipEnv goodSqs goodJob goodMi rfl rfl (by decide)
      (Or.inr (by decide)),
   c1_already_delivered_skips.2 skipEnv goodSqs goodJob goodMi rfl rfl (by decide)⟩

/-- C4: the duplicate-detection reads fail open: a read error is caught
and reported as not-sent for every channel, in both lambdas; by
construction the caught error is never re-raised (the functions are
total on the error case). -/
theorem c4_read_failure_fails_open :
    (∀ msg : String, checkIfNotificationsSent (.error msg) = ⟨false, false⟩) ∧
    (∀ msg : String, checkIfEmailSent (.error msg) = false) :=
  ⟨fun _ => rfl, fun _ => rfl⟩

/-- C2 counterexample: the claim asserts the conditional guard covers
every channel being written.  On the WhatsApp channel it does not: on a
store item whose `whatsapp_sent` is already `true` with a recorded
message id, a commit carrying only a WhatsApp message id succeeds and
overwrites `whatsapp_message_id` and `whatsapp_delivered_at`. -/
theorem c2_counterexample :
    c2Rec.whatsapp_sent = some true ∧
    c2Rec.whatsapp_message_id = some "wa-old" ∧
    updateNotificationStatus c2Rec .ok "t1" "sent" none none (some "wa-new") =
      .ok (some { c2Rec with
                  notification_status := some "sent",
                  notification_updated_at := some "t1",
                  whatsapp_status := some "sent",
                  whatsapp_message_id := some "wa-new",
                  whatsapp_delivered_at := some "t1" }) :=
  ⟨rfl, rfl, rfl⟩

/-- C2 amended: only the email channel is guarded.  When a commit
carries an email message id and `email_sent` is already `true`, the
write is rejected and swallowed (`.ok none`), and any commit that does
succeed on such an item leaves `email_message_id`, `email_delivered_at`
and `email_sent` untouched; the WhatsApp channel has no such guard (see
the counterexample). -/
theorem c2_conditional_covers_only_email :
    (∀ (rec : Record) (now status : String) (errMsg waMid : Option String) (m : String),
      m ≠ "" → rec.email_sent = some true →
      updateNotificationStatus rec .ok now status errMsg (some m) waMid = .ok none) ∧
    (∀ (rec : Record) (dyn : DynamoOutcome) (now status : String)
       (errMsg emailMid waMid : Option String) (r : Record),
      rec.email_sent = some true →
      updateNotificationStatus rec dyn now status errMsg emailMid waMid = .ok (some r) →
      r.email_message_id = rec.email_message_id ∧
      r.email_delivered_at = rec.email_delivered_at ∧
      r.email_sent = some true) := by
  constructor
  · intro rec now status errMsg waMid m hm hs
    have hne : m.isEmpty = false := by
      cases he : m.isEmpty
      · rfl
      · exact absurd ((String.isEmpty_iff m).mp he) hm
    simp [updateNotificationStatus, condCommit, jsTruthy, hne, hs]
  · intro rec dyn now status errMsg emailMid waMid r hs h
    cases dyn with
    | otherError e => simp [updateNotificationStatus] at h
    | ok =>
      simp only [updateNotificationStatus, Except.ok.injEq] at h
      unfold condCommit at h
      rw [hs] at h
      by_cases hmid : jsTruthy emailMid = true
      · simp only [hmid] at h
        simp at h
      · rw [Bool.not_eq_true] at hmid
        rw [if_neg (by simp [hmid])] at h
        injection h with h
        subst h
        unfold applyNotifUpdate
        rw [hmid]
        refine ⟨?_, ?_, ?_⟩ <;> (dsimp only; split <;> split <;> simp [hs])

/-- C2 witness: the guarded email path and the preservation clause
evaluated on a concrete already-sent item. -/
theorem c2_witness :
    updateNotificationStatus sentRec .ok "t1" "sent" none (some "em-dup") none = .ok none :=
  c2_conditional_covers_only_email.1 sentRec "t1" "sent" none none "em-dup"
    (by decide) rfl

/-- C3: a conditional-write rejection is not an error: with the store
reachable, a commit carrying a (nonempty) email message id against an
item already marked `email_sent = true` returns `.ok none` — the
swallowed `ConditionalCheckFailedException` path — and never `.error`;
moreover the orchestrator ignores the commit value: running the
concrete successful-email scenario against an arbitrary store item
(including one already marked sent, where the condition is rejected)
still returns status `sent`, never `failed`. -/
theorem c3_conflict_is_not_an_error :
    (∀ (rec : Record) (now status : String) (errMsg waMid : Option String) (m : String),
      m ≠ "" → rec.email_sent = some true →
      updateNotificationStatus rec .ok now status errMsg (some m) waMid = .ok none) ∧
    (∀ rec' : Record,
      (processNotificationMessage { goodEnv with storeRec := rec' } goodSqs).result =
        .ok sentResult) := by
  constructor
  · intro rec now status errMsg waMid m hm hs
    have hne : m.isEmpty = false := by
      cases he : m.isEmpty
      · rfl
      · exact absurd ((String.isEmpty_iff m).mp he) hm
    simp [updateNotificationStatus, condCommit, jsTruthy, hne, hs]
  · intro rec'
    rfl

/-- C3 witness: the conflict path and the orchestrator outcome
evaluated on the concrete already-sent item `sentRec`. -/
theorem c3_witness :
    updateNotificationStatus sentRec .ok "t" "sent" none (some "em-1") none = .ok none ∧
    (processNotificationMessage { goodEnv with storeRec := sentRec } goodSqs).result =
      .ok sentResult :=
  ⟨c3_conflict_is_not_an_error.1 sentRec "t" "sent" none none "em-1" (by decide) rfl,
   c3_conflict_is_not_an_error.2 sentRec⟩

/-- C5 counterexample: the claim asserts that email success with an
ineligible chat channel yields `partial`.  With WhatsApp enabled but no
phone on the job (chat ineligible), a successful fresh email send
produces status `sent` with `whatsappSent = false` — the ineligible
channel contributes no error and does not demote the status. -/
theorem c5_counterexample :
    c5Env.enableWhatsApp = true ∧
    (goodJob.guestInfo.map (·.phone)) = some none ∧
    (processNotificationMessage c5Env c5Sqs).result = .ok c5Result ∧
    c5Result.status = "sent" ∧ c5Result.whatsappSent = false :=
  ⟨rfl, rfl, rfl, rfl, rfl⟩

/-- C5 amended: the terminal classification is computed from the two
channel flags and the collected error list: `sent` when some channel
flag is set and no channel error was recorded, `partial` when a flag is
set alongside at least one error, `failed` when no flag is set.  A chat
channel that is merely ineligible (WhatsApp disabled, or no phone)
records no error and sets no flag, so email success with chat
ineligible yields `sent`, not `partial`. -/
theorem c5_terminal_classification :
    (∀ (env : Env) (sqs : SqsRecord) (r : ProcResult),
      (processNotificationMessage env sqs).result = .ok r → r.status ≠ "skipped" →
      r.status = (if r.emailSent || r.whatsappSent then
                    (if r.errors.isEmpty then "sent" else "partial")
                  else "failed")) ∧
    (∀ (env : Env) (gi : GuestInfo) (job : EmailJob),
      env.enableWhatsApp = false ∨ jsTruthy gi.phone = false →
      (whatsappPhase env gi job false).whatsappSent = false ∧
      (whatsappPhase env gi job false).errors = []) := by
  constructor
  · intro env sqs r h hs
    unfold processNotificationMessage at h
    revert h
    split
    · intro h; simp at h
    · split
      · intro h; simp at h
      · dsimp only
        split
        · intro h
          simp only [Except.ok.injEq] at h
          subst h
          exact absurd rfl hs
        · split
          · split
            · intro h; simp at h
            · intro h
              simp only [Except.ok.injEq] at h
              subst h
              rfl
          · split
            · intro h; simp at h
            · split
              · split
                · intro h; simp at h
                · intro h
                  simp only [Except.ok.injEq] at h
                  subst h
                  simp_all
              · split
                · intro h; simp at h
                · intro h
                  simp only [Except.ok.injEq] at h
                  subst h
                  simp_all
  · intro env gi job h
    rcases h with h | h
    · simp [whatsappPhase, h]
    · cases henv : env.enableWhatsApp <;> simp [whatsappPhase, h, henv]

/-- C5 witness: the classification formula and the ineligible-chat
clause evaluated on concrete runs. -/
theorem c5_witness :
    (sentResult.status = (if sentResult.emailSent || sentResult.whatsappSent then
        (if sentResult.errors.isEmpty then "sent" else "partial") else "failed")) ∧
    (whatsappPhase goodEnv chatGi goodJob false).whatsappSent = false ∧
    (whatsappPhase goodEnv chatGi goodJob false).errors = [] :=
  ⟨c5_terminal_classification.1 goodEnv goodSqs sentResult rfl (by decide),
   (c5_terminal_classification.2 goodEnv chatGi goodJob (Or.inl rfl)).1,
   (c5_terminal_classification.2 goodEnv chatGi goodJob (Or.inl rfl)).2⟩

/-- C6 counterexample: the claim asserts the match-count rejection
happens before any state-store call.  On a concrete job with
`totalMatches = 0` the rejection does carry a reason containing
"match" and precedes any transport call, but the run has already issued
the duplicate-detection store read and the rejection itself performs a
store write (trace: one read, one write — not zero store calls). -/
theorem c6_counterexample :
    (processNotificationMessage goodEnv c6Sqs).result =
      .ok { messageId := "m6", status := "failed",
            reason := some "No matches to notify about",
            eventId := some "e1", guestId := some "g1" } ∧
    strContains "No matches to notify about" "match" = true ∧
    (processNotificationMessage goodEnv c6Sqs).trace = ⟨1, 1, 0, 0, 0⟩ :=
  ⟨rfl, by decide, rfl⟩

/-- C6 amended: a job whose match block is present but whose
`totalMatches` is missing/non-numeric or `≤ 0` (and which passes the
earlier id/guest checks and is not skipped as a duplicate) is rejected
with status `failed` and a reason containing "match", before any
transport call (zero email and chat transport calls); however the run
performs one state-store read (duplicate detection, before validation)
and one state-store write (recording the failed status). -/
theorem c6_match_validation_rejection
    (env : Env) (sqs : SqsRecord) (job : EmailJob) (gi : GuestInfo) (mi : MatchInfo)
    (hb : sqs.body = some job) (hmi : job.matchInfo = some mi)
    (hskip : ((checkIfNotificationsSent env.readOutcome).email &&
      (!env.enableWhatsApp || (checkIfNotificationsSent env.readOutcome).whatsapp)) = false)
    (he : jsTruthy job.eventId = true) (hg : jsTruthy job.guestId = true)
    (hgi : job.guestInfo = some gi) (hn : jsTruthy gi.name = true)
    (ht : mi.totalMatches = none ∨ ∃ t, mi.totalMatches = some t ∧ t ≤ 0)
    (hd : env.dynamoWrite = .ok) :
    ∃ s, (processNotificationMessage env sqs).result =
        .ok { messageId := sqs.messageId, status := "failed", reason := some s,
              eventId := job.eventId, guestId := job.guestId } ∧
      strContains s "match" = true ∧
      (processNotificationMessage env sqs).trace = ⟨1, 1, 0, 0, 0⟩ := by
  obtain ⟨msgId, body⟩ := sqs
  obtain ⟨jeid, jgid, jgi, jmi, jmd⟩ := job
  obtain ⟨tm, tp⟩ := mi
  dsimp only at hb hmi he hg hgi ⊢
  subst hb
  subst hmi
  subst hgi
  rcases ht with ht | ⟨t, ht, hle⟩
  all_goals dsimp only at ht
  all_goals subst ht
  · refine ⟨"Missing or invalid match information", ?_, by decide, ?_⟩ <;>
      (unfold processNotificationMessage
       simp [hskip, validateNotificationJob, he, hg, hn, hd, updateNotificationStatus])
  · refine ⟨"No matches to notify about", ?_, by decide, ?_⟩ <;>
      (unfold processNotificationMessage
       simp [hskip, validateNotificationJob, he, hg, hn, hd, hle, updateNotificationStatus])

/-- C6 witness: the rejection theorem evaluated on the concrete
zero-match job. -/
theorem c6_witness :
    ∃ s, (processNotificationMessage goodEnv c6Sqs).result =
        .ok { messageId := c6Sqs.messageId, status := "failed", reason := some s,
              eventId := c6Job.eventId, guestId := c6Job.guestId } ∧
      strContains s "match" = true ∧
      (processNotificationMessage goodEnv c6Sqs).trace = ⟨1, 1, 0, 0, 0⟩ :=
  c6_match_validation_rejection goodEnv c6Sqs c6Job goodGi c6Mi rfl rfl (by decide)
    (by decide) (by decide) rfl (by decide)
    (Or.inr ⟨0, rfl, by decide⟩) rfl

/-- C7: batch isolation: every record of a batch yields exactly one
result entry (a thrown record is caught and converted into a `failed`
entry for that record alone, as `recordOutcome` shows on its `.error`
case), and the reported `batchItemFailures` identifiers are exactly the
identifiers of entries whose status is `failed` — `skipped`, `partial`
and `sent` entries are excluded. -/
theorem c7_batch_isolation :
    (∀ (envOf : SqsRecord → Env) (records : List SqsRecord),
      (handler envOf records).items.length = records.length) ∧
    (∀ (envOf : SqsRecord → Env) (records : List SqsRecord) (id : String),
      id ∈ (handler envOf records).batchItemFailures ↔
        ∃ it, it ∈ (handler envOf records).items ∧ it.status = "failed" ∧ it.messageId = id) ∧
    (∀ (envOf : SqsRecord → Env) (records : List SqsRecord) (r : SqsRecord),
      r ∈ records →
      recordOutcome (processNotificationMessage (envOf r) r).result r ∈
        (handler envOf records).items) := by
  refine ⟨?_, ?_, ?_⟩
  · intro envOf records
    simp [handler, handlerItems]
  · intro envOf records id
    simp only [handler, List.mem_map, List.mem_filter, beq_iff_eq]
    constructor
    · rintro ⟨it, ⟨hmem, hst⟩, hid⟩
      exact ⟨it, hmem, hst, hid⟩
    · rintro ⟨it, hmem, hst, hid⟩
      exact ⟨it, ⟨hmem, hst⟩, hid⟩
  · intro envOf records r hr
    exact List.mem_map_of_mem _ hr

/-- C7 witness: the three-record batch whose middle record throws:
three entries are produced, the middle record still appears as a
`failed` entry, and the failure list is exactly `["m2"]`. -/
theorem c7_witness :
    (handler (fun _ => goodEnv) batchRecords).items.length = batchRecords.length ∧
    ("m2" ∈ (handler (fun _ => goodEnv) batchRecords).batchItemFailures ↔
      ∃ it, it ∈ (handler (fun _ => goodEnv) batchRecords).items ∧
        it.status = "failed" ∧ it.messageId = "m2") ∧
    recordOutcome (processNotificationMessage goodEnv badSqs).result badSqs ∈
      (handler (fun _ => goodEnv) batchRecords).items ∧
    (handler (fun _ => goodEnv) batchRecords).batchItemFailures = ["m2"] :=
  ⟨c7_batch_isolation.1 (fun _ => goodEnv) batchRecords,
   c7_batch_isolation.2.1 (fun _ => goodEnv) batchRecords "m2",
   c7_batch_isolation.2.2 (fun _ => goodEnv) batchRecords badSqs (by decide),
   by decide⟩

/-- C8: a chat text-send that receives a 429 response with a parsable
body resolves as a soft success: `success = true` with the rate-limited
marker and a retry-after value (the body value, defaulting to 60);
any other non-2xx response is a hard failure (`success = false`, no
rate-limit marker); and within one composite chat attempt the text
message is sent exactly once — no second immediate send is issued. -/
theorem c8_rate_limit_soft_success :
    (∀ (now raw : String) (b : WaBody),
      sendWhatsAppTextMessage now (.response 429 (some b) raw) =
        { success := true, messageId := some ("wa_ratelimit_" ++ now),
          rateLimited := true, retryAfter := some (b.retry_after.getD 60) }) ∧
    (∀ (now raw : String) (code : Nat) (b : WaBody),
      ¬(200 ≤ code ∧ code < 300) → code ≠ 429 →
      (sendWhatsAppTextMessage now (.response code (some b) raw)).success = false ∧
      (sendWhatsAppTextMessage now (.response code (some b) raw)).rateLimited = false) ∧
    (∀ (env : Env) (gi : GuestInfo) (job : EmailJob) (pn : String),
      env.whatsappApiKeySet = true → formatPhoneNumber gi.phone = some pn →
      (sendWhatsAppNotification env gi job).2.textCalls = 1) := by
  refine ⟨?_, ?_, ?_⟩
  · intro now raw b
    simp [sendWhatsAppTextMessage]
  · intro now raw code b hrange h429
    have hb : ((200 ≤ code && code < 300 : Bool)) = false := by
      cases hbe : ((200 ≤ code && code < 300 : Bool))
      · rfl
      · exact absurd (by simpa using hbe) hrange
    have hb2 : (code == 429) = false := by simpa using h429
    constructor <;> simp [sendWhatsAppTextMessage, hb, hb2]
  · intro env gi job pn hk hpn
    unfold sendWhatsAppNotification
    rw [hpn]
    simp only [hk, Bool.not_true, Bool.false_eq_true, if_false]
    split <;> rfl

/-- C8 witness: the 429 soft success, a 500 hard failure, and the
single text send of the concrete composite attempt. -/
theorem c8_witness :
    sendWhatsAppTextMessage "t" (.response 429 (some { retry_after := some 120 }) "raw") =
      { success := true, messageId := some ("wa_ratelimit_" ++ "t"),
        rateLimited := true,
        retryAfter := some (({ retry_after := some 120 } : WaBody).retry_after.getD 60) } ∧
    ((sendWhatsAppTextMessage "t" (.response 500 (some {}) "raw")).success = false ∧
     (sendWhatsAppTextMessage "t" (.response 500 (some {}) "raw")).rateLimited = false) ∧
    (sendWhatsAppNotification chatEnv chatGi chatJob).2.textCalls = 1 :=
  ⟨c8_rate_limit_soft_success.1 "t" "raw" { retry_after := some 120 },
   c8_rate_limit_soft_success.2.1 "t" "raw" 500 {} (by decide) (by decide),
   c8_rate_limit_soft_success.2.2 chatEnv chatGi chatJob "919876543210" rfl (by decide)⟩

/-- C9: in the composite chat send, the parent channel outcome follows
the text message alone: when the text send succeeds the outcome has
`success = true` and carries the text message id, whatever the media
attachment responses are; when the text send fails the whole channel
outcome fails; and the orchestrator run — returned result, committed
store item and effect trace alike — is unchanged under any change of
the media attachment responses, so attachment failures never reach the
persisted state (they live only in the `imageResults` telemetry of the
composite outcome). -/
theorem c9_attachment_failures_isolated :
    (∀ (env : Env) (gi : GuestInfo) (job : EmailJob),
      env.whatsappApiKeySet = true →
      (formatPhoneNumber gi.phone).isSome = true →
      (sendWhatsAppTextMessage env.now env.waText).success = true →
      (sendWhatsAppNotification env gi job).1.success = true ∧
      (sendWhatsAppNotification env gi job).1.messageId =
        (sendWhatsAppTextMessage env.now env.waText).messageId) ∧
    (∀ (env : Env) (gi : GuestInfo) (job : EmailJob),
      env.whatsappApiKeySet = true →
      (formatPhoneNumber gi.phone).isSome = true →
      (sendWhatsAppTextMessage env.now env.waText).success = false →
      (sendWhatsAppNotification env gi job).1.success = false) ∧
    (∀ imgs : List HttpResult,
      processNotificationMessage { chatEnv with waImages := imgs } chatSqs =
        processNotificationMessage chatEnv chatSqs) := by
  refine ⟨?_, ?_, ?_⟩
  · intro env gi job hk hp ht
    obtain ⟨pn, hpn⟩ := Option.isSome_iff_exists.mp hp
    unfold sendWhatsAppNotification
    rw [hpn]
    simp [hk, ht]
  · intro env gi job hk hp ht
    obtain ⟨pn, hpn⟩ := Option.isSome_iff_exists.mp hp
    unfold sendWhatsAppNotification
    rw [hpn]
    simp [hk, ht]
  · intro imgs
    rfl

/-- C9 witness: the composite outcome of the concrete two-photo run
(first attachment succeeds, second fails) and the invariance of the
orchestrator run under replacing both attachment responses by
failures. -/
theorem c9_witness :
    ((sendWhatsAppNotification chatEnv chatGi chatJob).1.success = true ∧
     (sendWhatsAppNotification chatEnv chatGi chatJob).1.messageId =
       (sendWhatsAppTextMessage chatEnv.now chatEnv.waText).messageId) ∧
    processNotificationMessage { chatEnv with waImages := [.reqError "x", .timeout] } chatSqs =
      processNotificationMessage chatEnv chatSqs :=
  ⟨c9_attachment_failures_isolated.1 chatEnv chatGi chatJob rfl (by decide) (by decide),
   c9_attachment_failures_isolated.2.2 [.reqError "x", .timeout]⟩

/-- Every character of a digit-filtered list is a digit. -/
lemma filter_digits_all (l : List Char) :
    (l.filter (·.isDigit)).all (·.isDigit) = true := by
  rw [List.all_eq_true]
  intro x hx
  exact (List.mem_filter.mp hx).2

/-- C10: the phone normalizer returns only all-digit strings of length
10 to 15; it returns `none` for absent input, the literal `unknown`,
and any input whose digit count falls outside 10-15; a 10-digit number
starting 6-9 comes back with `91` prepended; a 12-digit `91`-prefixed
number comes back as its digits unchanged; and a `none` normalization
makes the composite chat send fail. -/
theorem c10_phone_normalization :
    (∀ (p : Option String) (s : String), formatPhoneNumber p = some s →
      s.toList.all (·.isDigit) = true ∧ 10 ≤ s.length ∧ s.length ≤ 15) ∧
    formatPhoneNumber none = none ∧
    formatPhoneNumber (some "unknown") = none ∧
    (∀ p : String, ((p.toList.filter (·.isDigit)).length < 10 ∨
        15 < (p.toList.filter (·.isDigit)).length) →
      formatPhoneNumber (some p) = none) ∧
    (∀ (p : String) (c : List Char), p ≠ "" → p ≠ "unknown" →
      p.toList.filter (·.isDigit) = c → c.length = 10 → leadingSixToNine c = true →
      formatPhoneNumber (some p) = some (String.mk ('9' :: '1' :: c))) ∧
    (∀ (p : String) (c : List Char), p ≠ "" → p ≠ "unknown" →
      p.toList.filter (·.isDigit) = c → c.length = 12 → c.take 2 = ['9', '1'] →
      formatPhoneNumber (some p) = some (String.mk c)) ∧
    (∀ (env : Env) (gi : GuestInfo) (job : EmailJob),
      formatPhoneNumber gi.phone = none →
      (sendWhatsAppNotification env gi job).1.success = false) := by
  refine ⟨?_, rfl, rfl, ?_, ?_, ?_, ?_⟩
  · intro p s h
    match p with
    | none => simp [formatPhoneNumber] at h
    | some q =>
      simp only [formatPhoneNumber] at h
      by_cases h0 : (q.isEmpty || q == "unknown") = true
      · rw [if_pos h0] at h; exact absurd h (by simp)
      · rw [if_neg h0] at h
        revert h
        split
        · intro h
          rename_i hcond
          injection h with h
          subst h
          simp only [Bool.and_eq_true, beq_iff_eq] at hcond
          refine ⟨?_, ?_, ?_⟩
          · simp only [String.toList]
            exact filter_digits_all _
          · simp only [String.length, String.toList] at hcond ⊢
            omega
          · simp only [String.length, String.toList] at hcond ⊢
            omega
        · split
          · intro h
            rename_i hcond
            injection h with h
            subst h
            simp only [Bool.and_eq_true, beq_iff_eq] at hcond
            refine ⟨?_, ?_, ?_⟩
            · simp only [String.toList, List.all_cons, filter_digits_all, Bool.and_true]
              decide
            · simp only [String.length, String.toList, List.length_cons] at hcond ⊢
              omega
            · simp only [String.length, String.toList, List.length_cons] at hcond ⊢
              omega
          · split
            · intro h
              rename_i hcond
              injection h with h
              subst h
              simp only [Bool.and_eq_true, decide_eq_true_eq] at hcond
              refine ⟨?_, ?_, ?_⟩
              · simp only [String.toList]
                exact filter_digits_all _
              · simp only [String.length, String.toList] at hcond ⊢
                omega
              · simp only [String.length, String.toList] at hcond ⊢
                omega
            · intro h
              exact absurd h (by simp)
  · intro p hout
    simp only [formatPhoneNumber]
    by_cases h0 : (p.isEmpty || p == "unknown") = true
    · rw [if_pos h0]
    · rw [if_neg h0]
      have h12 : (p.toList.filter (·.isDigit)).length ≠ 12 := by
        rcases hout with h | h <;> omega
      have h10 : (p.toList.filter (·.isDigit)).length ≠ 10 := by
        rcases hout with h | h <;> omega
      rw [if_neg (by simp only [Bool.and_eq_true, beq_iff_eq, not_and]; intro _; exact h12),
          if_neg (by simp only [Bool.and_eq_true, beq_iff_eq, not_and]
                     intro hx
                     exact (h10 hx).elim),
          if_neg (by simp only [Bool.and_eq_true, decide_eq_true_eq, not_and]; omega)]
  · intro p c hne hnu hc h10 hlead
    simp only [formatPhoneNumber]
    rw [if_neg (by
      have h1 : p.isEmpty = false := by
        cases he : p.isEmpty
        · rfl
        · exact absurd ((String.isEmpty_iff p).mp he) hne
      have h2 : (p == "unknown") = false := by simpa using hnu
      simp [h1, h2])]
    rw [hc]
    rw [if_neg (by simp only [Bool.and_eq_true, beq_iff_eq, not_and]; intro _; omega),
        if_pos (by simp only [Bool.and_eq_true, beq_iff_eq]; exact ⟨h10, hlead⟩)]
  · intro p c hne hnu hc h12 htake
    simp only [formatPhoneNumber]
    rw [if_neg (by
      have h1 : p.isEmpty = false := by
        cases he : p.isEmpty
        · rfl
        · exact absurd ((String.isEmpty_iff p).mp he) hne
      have h2 : (p == "unknown") = false := by simpa using hnu
      simp [h1, h2])]
    rw [hc]
    rw [if_pos (by simp only [Bool.and_eq_true, beq_iff_eq]; exact ⟨htake, h12⟩)]
  · intro env gi job h
    unfold sendWhatsAppNotification
    split
    · rfl
    · simp [h]

/-- C10 witness: the normalizer evaluated on a spaced 10-digit Indian
number, and the failing composite send on the `unknown` placeholder. -/
theorem c10_witness :
    ("919876543210".toList.all (·.isDigit) = true ∧
      10 ≤ ("919876543210" : String).length ∧ ("919876543210" : String).length ≤ 15) ∧
    formatPhoneNumber (some "98765 43210") =
      some (String.mk ('9' :: '1' :: ['9', '8', '7', '6', '5', '4', '3', '2', '1', '0'])) ∧
    (sendWhatsAppNotification goodEnv unknownGi goodJob).1.success = false :=
  ⟨c10_phone_normalization.1 (some "98765 43210") "919876543210" (by decide),
   c10_phone_normalization.2.2.2.2.1 "98765 43210"
     ['9', '8', '7', '6', '5', '4', '3', '2', '1', '0']
     (by decide) (by decide) (by decide) (by decide) (by decide),
   c10_phone_normalization.2.2.2.2.2.2 goodEnv unknownGi goodJob (by decide)⟩

end Notif
